import Mathlib

/-!
Verification of the PersDB db child process (`dbe`) and the MongoDB oplog
transform adapter contract.

The definitions below are a shallow embedding of the source:
- the head-lookup connection handler (`headLookupConnHandler` / `lookupById`),
- the incoming IPC message dispatcher (`handleIncomingMsg`),
- the startup sequence of the forked db child (log, hooks, uid/gid, chroot,
  data path, store open) with its exit codes,
- the signal handling installed after `listen`,
- the oplog transform contract (modelled from the spec, see below).
-/

/-! ## Data model: items and the local tree -/

/-- Header of a versioned item: logical id, version identifier, tombstone flag
`d`, conflict flag `c`, and insertion sequence `i`. -/
structure Header where
  id : String
  v : String
  d : Bool
  c : Bool
  i : Nat
deriving Repr, DecidableEq

/-- A versioned item: header plus an opaque body (association list of fields). -/
structure Item where
  h : Header
  b : List (String × String)
deriving Repr, DecidableEq

/-- The local tree as seen by the head-lookup handler: the current head set,
the items in insertion order (the byI index), and the byVersion index. -/
structure LTree where
  heads : List Item
  items : List Item
  byVersion : List (String × Item)
deriving Repr, DecidableEq

/-- Error message produced by `lookupById` when a second non-conflicting and
non-deleted head of the same id is visited. -/
def ambiguousHeadMsg : String := "already found another non-conflicting and non-deleted head"

/-- Heads of `id` as yielded by `getHeads` with `skipConflicts` and
`skipDeletes` set, which is how `lookupById` calls it. -/
def matchingHeads (heads : List Item) (id : String) : List Item :=
  heads.filter fun x => x.h.id == id && !x.h.d && !x.h.c

/-- The visitor used by `lookupById`: keep the first head, error as soon as a
second head is yielded. -/
def visitHeads : List Item → Option Item → Except String (Option Item)
  | [], acc => Except.ok acc
  | _ :: _, some _ => Except.error ambiguousHeadMsg
  | x :: xs, none => visitHeads xs (some x)

/-- One attempt of `lookupById`: run `getHeads` over the current head set; on
no head, retry when the id is still in the write buffer, otherwise report
not-found. -/
inductive StepOutcome
  | found (x : Item)
  | notFound
  | retry
  | failed (msg : String)
deriving Repr, DecidableEq

def lookupStep (heads : List Item) (id : String) (inBuf : Bool) : StepOutcome :=
  match visitHeads (matchingHeads heads id) none with
  | .error e => .failed e
  | .ok (some x) => .found x
  | .ok none => if inBuf then .retry else .notFound

/-- The delay, in milliseconds, between two attempts of `lookupById`
(the `setTimeout(..., 100)` in the source). -/
def retryDelayMs : Nat := 100

/-- `lookupById` run against an environment giving, for each attempt `t`, the
head set and the answer of `inBufferById`. The extra fuel argument counts the
attempts we are willing to observe: `none` means the lookup was still
retrying after that many attempts. -/
def lookupByIdFrom (env : Nat → List Item × Bool) (id : String) :
    Nat → Nat → Option (Except String (Option Item))
  | _, 0 => none
  | t, fuel + 1 =>
    match lookupStep (env t).1 id (env t).2 with
    | .found x => some (.ok (some x))
    | .notFound => some (.ok none)
    | .failed e => some (.error e)
    | .retry => lookupByIdFrom env id (t + 1) fuel

/-- `lookupById` terminates on `env`: some finite number of attempts produces
an answer. -/
def lookupTerminates (env : Nat → List Item × Bool) (id : String) : Prop :=
  ∃ fuel r, lookupByIdFrom env id 0 fuel = some r

/-- As `lookupByIdFrom`, but also returning the total time spent sleeping
between attempts (100 ms per retry). -/
def lookupByIdTimed (env : Nat → List Item × Bool) (id : String) :
    Nat → Nat → Option (Nat × Except String (Option Item))
  | _, 0 => none
  | t, fuel + 1 =>
    match lookupStep (env t).1 id (env t).2 with
    | .found x => some (retryDelayMs * t, .ok (some x))
    | .notFound => some (retryDelayMs * t, .ok none)
    | .failed e => some (retryDelayMs * t, .error e)
    | .retry => lookupByIdTimed env id (t + 1) fuel

/-- `lookupById` once the write buffer has quiesced (`inBufferById` is false):
a single attempt decides. -/
def lookupByIdQuiesced (heads : List Item) (id : String) : Except String (Option Item) :=
  match lookupStep heads id false with
  | .found x => .ok (some x)
  | .notFound => .ok none
  | .failed e => .error e
  | .retry => .ok none

/-- What the connection observes. `destroyed` is `connErrorHandler` calling
`conn.destroy()`; the two write events are a BSON item and the empty BSON
object. -/
inductive ConnEvent
  | wroteItem (x : Item)
  | wroteEmpty
  | destroyed
deriving Repr, DecidableEq

/-- The `req.id` branch of `headLookupConnHandler`, after the write buffer has
quiesced: write the head, write an empty object if none, destroy the
connection on error. -/
def handleIdRequest (heads : List Item) (id : String) : ConnEvent :=
  match lookupByIdQuiesced heads id with
  | .error _ => .destroyed
  | .ok (some x) => .wroteItem x
  | .ok none => .wroteEmpty

/-- The `req.prefixExists` branch: `getHeads` with a prefix and limit 1, no
skip filters; the visitor keeps the last head yielded, so the first head whose
id has the prefix is returned. -/
def prefixHead (heads : List Item) (p : String) : Option Item :=
  (heads.filter fun x => p.isPrefixOf x.h.id).head?

/-- `lastVersion`: the item carrying the largest insertion sequence `i`
(the last key of the byI index). -/
def lastVersionItem : List Item → Option Item
  | [] => none
  | x :: xs =>
    match lastVersionItem xs with
    | none => some x
    | some y => if y.h.i < x.h.i then some x else some y

/-- `getByVersion` over the byVersion index. -/
def getByVersion (tree : LTree) (v : String) : Option Item :=
  tree.byVersion.lookup v

/-- The branch of `headLookupConnHandler` taken when the request has neither
`id` nor `prefixExists`: fetch `lastVersion`, then fetch that version back by
version; empty object when the tree has no version yet; the connection is
destroyed when the fetch-back fails (the `head not found` error). -/
def respondLast (tree : LTree) : ConnEvent :=
  match lastVersionItem tree.items with
  | none => .wroteEmpty
  | some m =>
    match getByVersion tree m.h.v with
    | none => .destroyed
    | some x => .wroteItem x

/-- A parsed head lookup request: by id, by prefix, or neither. -/
inductive HeadLookupReq
  | byId (id : String)
  | byPrefixCheck (p : String)
  | lastSaved
deriving Repr, DecidableEq

/-- A raw line on the head-lookup channel: its serialized byte length and its
payload once parsed. -/
structure RawReq where
  bytes : Nat
  payload : HeadLookupReq
deriving Repr, DecidableEq

/-- The `maxDocLength` passed to the LDJSON parser of the head-lookup
channel. -/
def maxDocLength : Nat := 512

/-- Response to a parsed request (write buffer quiesced). -/
def respond (tree : LTree) (req : HeadLookupReq) : ConnEvent :=
  match req with
  | .byId id => handleIdRequest tree.heads id
  | .byPrefixCheck p =>
    match prefixHead tree.heads p with
    | some x => .wroteItem x
    | none => .wroteEmpty
  | .lastSaved => respondLast tree

/-- Processing of one raw request line: an oversized line makes the LDJSON
stream error, which destroys the connection before any response; otherwise the
parsed request is served. -/
def processRequest (tree : LTree) (r : RawReq) : List ConnEvent :=
  if maxDocLength < r.bytes then [ConnEvent.destroyed] else [respond tree r.payload]

/-- Number of response items (a BSON item or the empty BSON object) among the
connection events. -/
def answeredCount (es : List ConnEvent) : Nat :=
  (es.filter fun e => match e with | .destroyed => false | _ => true).length

/-! ## The IPC message dispatcher of the db child -/

/-- The three `...Received` globals guarding channel setup in the db child. -/
structure DbeState where
  headLookupReceived : Bool
  localDataChannelReceived : Bool
  autoMergeReceived : Bool
deriving Repr, DecidableEq, Fintype

/-- Incoming parent-to-child messages, by `msg.type`. The booleans record
whether a connection accompanied the message and, for remote data channels,
whether the named perspective is configured. -/
inductive IpcMsg
  | headLookup
  | autoMerge
  | localDataChannel (hasConn : Bool)
  | remoteDataChannel (hasConn : Bool) (persKnown : Bool)
  | kill
  | other
deriving Repr, DecidableEq

/-- The externally visible effect of handling one message. -/
inductive IpcEffect
  | headLookupAttached
  | mergeStarted
  | localWriterAttached
  | remoteHandlerStarted
  | shutdownCalled
  | errorLogged (msg : String)
deriving Repr, DecidableEq

/-- Whether the effect is a rejection: an error was created and logged and no
stream or handler was attached. -/
def isRejection : IpcEffect → Bool
  | .errorLogged _ => true
  | _ => false

/-- `handleIncomingMsg` of the db child: dispatch on `msg.type`, guarding the
head lookup channel, auto merge and the local data channel with the three
received flags. -/
def handleIncomingMsg (s : DbeState) (m : IpcMsg) : DbeState × IpcEffect :=
  match m with
  | .headLookup =>
    if s.headLookupReceived then
      (s, .errorLogged "already registered a head lookup channel")
    else
      ({ s with headLookupReceived := true }, .headLookupAttached)
  | .autoMerge =>
    if s.autoMergeReceived then
      (s, .errorLogged "already auto merging")
    else if s.localDataChannelReceived then
      (s, .errorLogged "already received a local data channel request")
    else
      ({ s with autoMergeReceived := true }, .mergeStarted)
  | .localDataChannel hasConn =>
    if !hasConn then
      (s, .errorLogged "handleIncomingMsg connection missing")
    else if s.localDataChannelReceived then
      (s, .errorLogged "already received a local data channel request")
    else if s.autoMergeReceived then
      (s, .errorLogged "already auto merging")
    else
      ({ s with localDataChannelReceived := true }, .localWriterAttached)
  | .remoteDataChannel hasConn persKnown =>
    if !hasConn then
      (s, .errorLogged "handleIncomingMsg connection missing")
    else if !persKnown then
      (s, .errorLogged "unknown perspective")
    else
      (s, .remoteHandlerStarted)
  | .kill => (s, .shutdownCalled)
  | .other => (s, .errorLogged "unknown message type")

/-- State of the db child right after `listen`: no channel set up yet. -/
def initDbeState : DbeState := ⟨false, false, false⟩

/-- Run a sequence of incoming messages, keeping only the state. -/
def runMsgs (s : DbeState) (ms : List IpcMsg) : DbeState :=
  ms.foldl (fun s m => (handleIncomingMsg s m).1) s

/-! ## Startup and exit codes of the db child -/

/-- Result of `fs.stat` on the data path. -/
inductive StatRes
  | okDir
  | okNotDir
  | errNoEnt
  | errOther
deriving Repr, DecidableEq

/-- Outcomes of the environment calls made during startup, in the order the
source makes them. -/
structure StartupEnv where
  logOpenOk : Bool
  hookPathsGiven : Bool
  hookLoadOk : Bool
  userGroupOk : Bool
  mkdirChrootOk : Bool
  statRes : StatRes
  mkdirDataOk : Bool
  chownOk : Bool
  chrootOk : Bool
  dbOpenOk : Bool
deriving Repr, DecidableEq

/-- How the startup sequence ends: the process keeps running, exits with a
code, or an error is thrown out of the logger callback. -/
inductive StartOutcome
  | running
  | exited (code : Nat)
  | threw
deriving Repr, DecidableEq

/-- `doChroot` followed by `openDbAndProceed`: exit 8 when the chroot system
call fails, exit 9 when the level store cannot be opened. -/
def chrootAndOpen (env : StartupEnv) : StartOutcome :=
  if !env.chrootOk then .exited 8
  else if !env.dbOpenOk then .exited 9
  else .running

/-- The startup sequence of the forked db child, from the logger callback to
`postChroot`: a log-open error is thrown (not an exit code), hook loading
failure exits 2, uid/gid lookup failure exits 3, mkdirp of the chroot exits 3,
stat on the data path exits 4 on a non-ENOENT error, mkdir of the data path
exits 5, chown exits 6, a data path that is not a directory exits 7, then
chroot (8) and store open (9). -/
def startupDbe (env : StartupEnv) : StartOutcome :=
  if !env.logOpenOk then .threw
  else if env.hookPathsGiven && !env.hookLoadOk then .exited 2
  else if !env.userGroupOk then .exited 3
  else if !env.mkdirChrootOk then .exited 3
  else
    match env.statRes with
    | .errOther => .exited 4
    | .errNoEnt =>
      if !env.mkdirDataOk then .exited 5
      else if !env.chownOk then .exited 6
      else chrootAndOpen env
    | .okNotDir => .exited 7
    | .okDir => chrootAndOpen env

/-- The startup phases before the data path is examined all succeeded: the log
opened, hooks (when requested) loaded, the uid/gid lookup succeeded and the
chroot directory could be created. -/
def preOk (env : StartupEnv) : Prop :=
  env.logOpenOk = true ∧ (env.hookPathsGiven = false ∨ env.hookLoadOk = true) ∧
    env.userGroupOk = true ∧ env.mkdirChrootOk = true

/-- The data path was set up: it already existed as a directory, or it was
missing and both mkdir and chown succeeded. -/
def pathOk (env : StartupEnv) : Prop :=
  env.statRes = .okDir ∨
    (env.statRes = .errNoEnt ∧ env.mkdirDataOk = true ∧ env.chownOk = true)

/-! ## Signal handling after listen -/

/-- Signals with handlers installed in `postChroot`. -/
inductive Sig
  | sigterm
  | sigint
  | sigusr2
deriving Repr, DecidableEq

/-- Signal-handler state of the db child: whether the once-listeners for
SIGTERM and SIGINT are still installed, how many stats dumps SIGUSR2 has
produced, and whether the process was terminated by a signal's default
action. -/
structure SigState where
  termListener : Bool
  intListener : Bool
  statsDumps : Nat
  terminated : Bool
deriving Repr, DecidableEq

/-- State right after `postChroot` ran `process.once` for SIGTERM and SIGINT
and `process.on` for SIGUSR2. -/
def initSigState : SigState := ⟨true, true, 0, false⟩

/-- Delivery of one signal. A once-listener runs `noop` and is removed; with
no listener left, the default action terminates the process. The SIGUSR2
listener is permanent and only dumps stats. -/
def deliverSignal (s : SigState) (g : Sig) : SigState :=
  if s.terminated then s
  else
    match g with
    | .sigterm =>
      if s.termListener then { s with termListener := false }
      else { s with terminated := true }
    | .sigint =>
      if s.intListener then { s with intListener := false }
      else { s with terminated := true }
    | .sigusr2 => { s with statsDumps := s.statsDumps + 1 }

/-- Delivery of a sequence of signals. -/
def deliverSignals (s : SigState) (gs : List Sig) : SigState :=
  gs.foldl deliverSignal s

/-! ## The oplog transform adapter

Modelled from the spec: the implementation of the MongoDB oplog transform
(`adapter/mongo/oplog_transform.js`) is not among the provided sources; only
its test suite is. The spec describes the adapter as observing a foreign
change log with the four record kinds "insert", "update-full-doc",
"update-modifier" and "delete"; for "update-modifier" it writes a single
line-delimited JSON lookup request with the id onto a request channel and
awaits one BSON item on the response channel, failing with
`PreviousVersionNotFound` when no base exists; and it must be side-effect-free
on its input records. The definitions below follow those words, with the
concrete emitted shapes taken from the expectations of the test suite. -/

/-- An opaque document body: association list of fields. -/
abbrev Doc : Type := List (String × String)

/-- The four oplog record kinds the adapter handles, with their payloads:
the inserted or full replacement document, or the set-fields of a modifier
together with the target id from `o2`, or the deleted id. -/
inductive OplogOp
  | insertDoc (o : Doc)
  | updateFullDoc (o : Doc)
  | updateModifier (setFields : Doc) (targetId : String)
  | deleteDoc (targetId : String)
deriving Repr, DecidableEq

/-- One oplog record: timestamp, namespace, and the operation. -/
structure OplogItem where
  ts : Nat
  ns : String
  op : OplogOp
deriving Repr, DecidableEq

/-- A canonical item as emitted by the adapter: id, tombstone flag, body
(absent for tombstones) and the source oplog timestamp kept in the meta
annotations. -/
structure PdbItem where
  id : String
  d : Bool
  body : Option Doc
  opTs : Nat
deriving Repr, DecidableEq

/-- Error message of `PreviousVersionNotFound`: the oplog modifier has no base
document to apply to. -/
def previousVersionNotFoundMsg : String := "previous version of doc not found"

/-- Upsert one field into a document. -/
def setField (d : Doc) (k : String) (v : String) : Doc :=
  if (d.lookup k).isSome then d.map (fun p => if p.1 == k then (k, v) else p)
  else d ++ [(k, v)]

/-- Application of a set-modifier: upsert every modifier field into the base
document. -/
def applySet (base : Doc) (fields : Doc) : Doc :=
  fields.foldl (fun acc p => setField acc p.1 p.2) base

/-- The id a record is about. -/
def oplogIdOf : OplogOp → String
  | .insertDoc o => (o.lookup "_id").getD ""
  | .updateFullDoc o => (o.lookup "_id").getD ""
  | .updateModifier _ targetId => targetId
  | .deleteDoc targetId => targetId

/-- The transform of one oplog record. State-passing renders the mutable input
record: the first component is the record as it stands after processing. The
second component lists the ids of the lookup requests written to the request
channel, and the third is the emitted new version or the error. The `resp`
argument is the one BSON item read from the response channel when a lookup
request was written; `none` renders the empty BSON object (no previous
version exists). -/
def transformOplogItem (r : OplogItem) (resp : Option PdbItem) :
    OplogItem × List String × Except String (Option PdbItem) :=
  match r.op with
  | .insertDoc o =>
    (r, [], .ok (some { id := (o.lookup "_id").getD "", d := false, body := some o, opTs := r.ts }))
  | .updateFullDoc o =>
    (r, [], .ok (some { id := (o.lookup "_id").getD "", d := false, body := some o, opTs := r.ts }))
  | .updateModifier setFields targetId =>
    match resp with
    | none => (r, [targetId], .error previousVersionNotFoundMsg)
    | some head =>
      (r, [targetId],
        .ok (some { id := targetId, d := false,
                    body := some (applySet (head.body.getD []) setFields), opTs := r.ts }))
  | .deleteDoc targetId =>
    (r, [], .ok (some { id := targetId, d := true, body := none, opTs := r.ts }))

/-! ## Concrete fixtures used by witnesses and counterexamples -/

/-- A head of id `y`. -/
def itemY : Item := { h := { id := "y", v := "Aaaa", d := false, c := false, i := 1 }, b := [] }

/-- A first head of id `x`. -/
def itemA : Item := { h := { id := "x", v := "Aaaa", d := false, c := false, i := 1 }, b := [] }

/-- A second head of id `x`. -/
def itemB : Item := { h := { id := "x", v := "Bbbb", d := false, c := false, i := 2 }, b := [] }

/-- An environment in which the id never reaches disk and never leaves the
write buffer: every attempt of `lookupById` finds no head and retries. -/
def stuckEnv : Nat → List Item × Bool := fun _ => ([], true)

/-- An environment in which the id is still in the write buffer on the first
attempt and persisted on the second. -/
def riseEnv : Nat → List Item × Bool := fun t => if t = 0 then ([], true) else ([itemY], false)

/-- A local tree holding two non-conflicting, non-deleted heads of id `x`. -/
def ambTree : LTree :=
  { heads := [itemA, itemB], items := [itemA, itemB],
    byVersion := [("Aaaa", itemA), ("Bbbb", itemB)] }

/-- A well-formed head-lookup request for id `x`, well under 512 bytes. -/
def ambReq : RawReq := { bytes := 20, payload := .byId "x" }

/-- An oversized head-lookup request line. -/
def bigReq : RawReq := { bytes := 600, payload := .lastSaved }

/-- A startup environment where only opening the log fails. -/
def logFailEnv : StartupEnv :=
  { logOpenOk := false, hookPathsGiven := false, hookLoadOk := true, userGroupOk := true,
    mkdirChrootOk := true, statRes := .okDir, mkdirDataOk := true, chownOk := true,
    chrootOk := true, dbOpenOk := true }

/-- A startup environment where everything succeeds. -/
def allOkEnv : StartupEnv :=
  { logOpenOk := true, hookPathsGiven := false, hookLoadOk := true, userGroupOk := true,
    mkdirChrootOk := true, statRes := .okDir, mkdirDataOk := true, chownOk := true,
    chrootOk := true, dbOpenOk := true }

/-! ## Helper lemmas -/

/-- One message cannot create the forbidden state in which both auto merge and
a local data channel are engaged. -/
theorem handle_step_not_both (s : DbeState) (m : IpcMsg)
    (h : ¬(s.autoMergeReceived = true ∧ s.localDataChannelReceived = true)) :
    ¬(((handleIncomingMsg s m).1).autoMergeReceived = true ∧
      ((handleIncomingMsg s m).1).localDataChannelReceived = true) := by
  rcases s with ⟨hl, ld, am⟩
  cases m with
  | headLookup => cases hl <;> simpa [handleIncomingMsg] using h
  | autoMerge => cases am <;> cases ld <;> simp_all [handleIncomingMsg]
  | localDataChannel hc => cases hc <;> cases am <;> cases ld <;> simp_all [handleIncomingMsg]
  | remoteDataChannel hc pk =>
    cases hc <;> cases pk <;> simpa [handleIncomingMsg] using h
  | kill => simpa [handleIncomingMsg] using h
  | other => simpa [handleIncomingMsg] using h

/-- Running any message sequence preserves the mutual exclusion of auto merge
and the local data channel. -/
theorem runMsgs_not_both (ms : List IpcMsg) :
    ∀ s : DbeState, ¬(s.autoMergeReceived = true ∧ s.localDataChannelReceived = true) →
      ¬((runMsgs s ms).autoMergeReceived = true ∧
        (runMsgs s ms).localDataChannelReceived = true) := by
  induction ms with
  | nil => intro s h; simpa [runMsgs] using h
  | cons m rest ih =>
    intro s h
    have h1 := handle_step_not_both s m h
    simpa [runMsgs] using ih _ (by simpa [runMsgs] using h1)

/-! ## Claim theorems -/

/-- Claim C1: at most one of auto merge and an external local data channel is
ever engaged. From the initial state no message sequence reaches a state with
both flags set; once `autoMerge` was accepted any `localDataChannel` message
is rejected with a logged error leaving the state unchanged (so no local write
stream is attached); once a `localDataChannel` was accepted any `autoMerge`
message is rejected with a logged error leaving the state unchanged (so
merging is not started). -/
theorem handleIncomingMsg_channel_exclusive :
    (∀ ms : List IpcMsg,
        ¬((runMsgs initDbeState ms).autoMergeReceived = true ∧
          (runMsgs initDbeState ms).localDataChannelReceived = true))
  ∧ (∀ (s : DbeState) (hc : Bool), s.autoMergeReceived = true →
        (handleIncomingMsg s (.localDataChannel hc)).1 = s ∧
        isRejection (handleIncomingMsg s (.localDataChannel hc)).2 = true)
  ∧ (∀ s : DbeState, s.localDataChannelReceived = true →
        (handleIncomingMsg s .autoMerge).1 = s ∧
        isRejection (handleIncomingMsg s .autoMerge).2 = true) := by
  refine ⟨fun ms => runMsgs_not_both ms initDbeState (by decide), by decide, by decide⟩

/-- Witness for C1 at concrete states: with auto merge engaged a local data
channel request is rejected, and with a local data channel engaged an auto
merge request is rejected. -/
theorem handleIncomingMsg_channel_exclusive_witness :
    ((handleIncomingMsg ⟨false, false, true⟩ (.localDataChannel true)).1 = ⟨false, false, true⟩ ∧
      isRejection (handleIncomingMsg ⟨false, false, true⟩ (.localDataChannel true)).2 = true)
  ∧ ((handleIncomingMsg ⟨false, true, false⟩ .autoMerge).1 = ⟨false, true, false⟩ ∧
      isRejection (handleIncomingMsg ⟨false, true, false⟩ .autoMerge).2 = true) :=
  ⟨handleIncomingMsg_channel_exclusive.2.1 ⟨false, false, true⟩ true rfl,
   handleIncomingMsg_channel_exclusive.2.2 ⟨false, true, false⟩ rfl⟩

/-- Claim C6 (code bug): the noop handlers for SIGTERM and SIGINT are
installed with `process.once`, so only the first such signal is ignored; the
second delivery of the same signal finds no listener and the default action
terminates the child. SIGUSR2 is handled with a permanent listener and only
dumps stats, and the `kill` message triggers shutdown in all states. -/
theorem sigterm_once_listener_bug :
    (deliverSignals initSigState [Sig.sigterm]).terminated = false
  ∧ (deliverSignals initSigState [Sig.sigterm, Sig.sigterm]).terminated = true
  ∧ (deliverSignals initSigState [Sig.sigint, Sig.sigint]).terminated = true
  ∧ (∀ s : SigState,
        (deliverSignal s .sigusr2).terminated = s.terminated ∧
        (deliverSignal s .sigusr2).termListener = s.termListener ∧
        (deliverSignal s .sigusr2).intListener = s.intListener ∧
        (deliverSignal s .sigusr2).statsDumps =
          (if s.terminated then s.statsDumps else s.statsDumps + 1))
  ∧ (∀ s : DbeState, (handleIncomingMsg s IpcMsg.kill).2 = IpcEffect.shutdownCalled) := by
  refine ⟨rfl, rfl, rfl, ?_, fun s => rfl⟩
  intro s
  rcases s with ⟨tl, il, sd, tm⟩
  cases tm <;> simp [deliverSignal]

/-- Claim C7 (spec-modelled): for an update-modifier oplog record the adapter
writes exactly one lookup request carrying the record's id, and when the
response channel answers with the empty item it fails with the
previous-version-not-found error and emits no new version. -/
theorem oplog_update_modifier_lookup :
    ∀ (ts : Nat) (ns : String) (fields : Doc) (tid : String) (resp : Option PdbItem),
      (transformOplogItem ⟨ts, ns, .updateModifier fields tid⟩ resp).2.1 = [tid]
    ∧ (transformOplogItem ⟨ts, ns, .updateModifier fields tid⟩ none).2.2 =
        .error previousVersionNotFoundMsg
    ∧ (∀ v, (transformOplogItem ⟨ts, ns, .updateModifier fields tid⟩ none).2.2 ≠ .ok v) := by
  intro ts ns fields tid resp
  refine ⟨?_, rfl, ?_⟩
  · cases resp <;> rfl
  · intro v h
    simp [transformOplogItem] at h

/-- Claim C8 (spec-modelled): the transform leaves its input record unchanged:
the record handed back after processing any oplog record equals the input. -/
theorem oplog_transform_preserves_input :
    ∀ (r : OplogItem) (resp : Option PdbItem), (transformOplogItem r resp).1 = r := by
  intro r resp
  rcases r with ⟨ts, ns, op⟩
  cases op <;> cases resp <;> rfl

/-- An answered lookup run passed through an attempt that did not retry. -/
theorem lookupFrom_some_imp_step (env : Nat → List Item × Bool) (id : String) :
    ∀ (fuel t : Nat) (r : Except String (Option Item)),
      lookupByIdFrom env id t fuel = some r →
      ∃ u, t ≤ u ∧ lookupStep (env u).1 id (env u).2 ≠ .retry := by
  intro fuel
  induction fuel with
  | zero => intro t r h; simp [lookupByIdFrom] at h
  | succ n ih =>
    intro t r h
    cases hstep : lookupStep (env t).1 id (env t).2 with
    | found x => exact ⟨t, Nat.le_refl t, by simp [hstep]⟩
    | notFound => exact ⟨t, Nat.le_refl t, by simp [hstep]⟩
    | failed e => exact ⟨t, Nat.le_refl t, by simp [hstep]⟩
    | retry =>
      rw [lookupByIdFrom, hstep] at h
      rcases ih (t + 1) r h with ⟨u, hu, hne⟩
      exact ⟨u, Nat.le_trans (Nat.le_succ t) hu, hne⟩

/-- An attempt that does not retry bounds the fuel the lookup needs. -/
theorem step_imp_lookupFrom (env : Nat → List Item × Bool) (id : String) :
    ∀ (d t : Nat), lookupStep (env (t + d)).1 id (env (t + d)).2 ≠ .retry →
      ∃ r, lookupByIdFrom env id t (d + 1) = some r := by
  intro d
  induction d with
  | zero =>
    intro t h
    rw [Nat.add_zero] at h
    cases hstep : lookupStep (env t).1 id (env t).2 with
    | found x => exact ⟨.ok (some x), by rw [lookupByIdFrom, hstep]⟩
    | notFound => exact ⟨.ok none, by rw [lookupByIdFrom, hstep]⟩
    | failed e => exact ⟨.error e, by rw [lookupByIdFrom, hstep]⟩
    | retry => exact absurd hstep h
  | succ n ih =>
    intro t h
    cases hstep : lookupStep (env t).1 id (env t).2 with
    | found x => exact ⟨.ok (some x), by rw [lookupByIdFrom, hstep]⟩
    | notFound => exact ⟨.ok none, by rw [lookupByIdFrom, hstep]⟩
    | failed e => exact ⟨.error e, by rw [lookupByIdFrom, hstep]⟩
    | retry =>
      have he : t + 1 + n = t + (n + 1) := by omega
      rcases ih (t + 1) (by rw [he]; exact h) with ⟨r, hr⟩
      exact ⟨r, by rw [lookupByIdFrom, hstep]; exact hr⟩

/-- When the first `t` attempts retry and attempt `t` answers, the timed run
reports a total sleep of `retryDelayMs` per retry. -/
theorem timed_reach (env : Nat → List Item × Bool) (id : String) :
    ∀ (d t0 : Nat),
      (∀ u, t0 ≤ u → u < t0 + d → lookupStep (env u).1 id (env u).2 = .retry) →
      lookupStep (env (t0 + d)).1 id (env (t0 + d)).2 ≠ .retry →
      ∃ r, lookupByIdTimed env id t0 (d + 1) = some (retryDelayMs * (t0 + d), r) := by
  intro d
  induction d with
  | zero =>
    intro t0 _ h
    simp only [Nat.add_zero] at h ⊢
    cases hstep : lookupStep (env t0).1 id (env t0).2 with
    | found x => exact ⟨.ok (some x), by rw [lookupByIdTimed, hstep]⟩
    | notFound => exact ⟨.ok none, by rw [lookupByIdTimed, hstep]⟩
    | failed e => exact ⟨.error e, by rw [lookupByIdTimed, hstep]⟩
    | retry => exact absurd hstep h
  | succ n ih =>
    intro t0 hall h
    have hstep0 : lookupStep (env t0).1 id (env t0).2 = .retry :=
      hall t0 (Nat.le_refl t0) (by omega)
    have he : t0 + 1 + n = t0 + (n + 1) := by omega
    rcases ih (t0 + 1) (fun u hu1 hu2 => hall u (by omega) (by omega))
        (by rw [he]; exact h) with ⟨r, hr⟩
    rw [he] at hr
    exact ⟨r, by rw [lookupByIdTimed, hstep0]; exact hr⟩

/-- Claim C2 (amended): head lookup by id retries with a 100 ms delay between
attempts, but without any retry budget. The lookup terminates exactly when
some attempt finds a head, errors, or sees the id out of the write buffer;
when the first `t` attempts retry and attempt `t` answers, the answer arrives
after `retryDelayMs * t` milliseconds of sleeping. -/
theorem lookupById_retry_contract :
    ∀ (env : Nat → List Item × Bool) (id : String),
      (lookupTerminates env id ↔ ∃ t, lookupStep (env t).1 id (env t).2 ≠ .retry)
    ∧ (∀ t : Nat,
        (∀ u, u < t → lookupStep (env u).1 id (env u).2 = .retry) →
        lookupStep (env t).1 id (env t).2 ≠ .retry →
        ∃ r, lookupByIdTimed env id 0 (t + 1) = some (retryDelayMs * t, r)) := by
  intro env id
  constructor
  · constructor
    · rintro ⟨fuel, r, h⟩
      rcases lookupFrom_some_imp_step env id fuel 0 r h with ⟨u, _, hne⟩
      exact ⟨u, hne⟩
    · rintro ⟨t, hne⟩
      rcases step_imp_lookupFrom env id t 0 (by simpa using hne) with ⟨r, hr⟩
      exact ⟨t + 1, r, hr⟩
  · intro t hall hne
    have h := timed_reach env id t 0 (fun u _ hu2 => hall u (by omega))
      (by simpa using hne)
    simpa using h

/-- Counterexample to C2 as stated: in an environment where the id never
leaves the write buffer and no head ever appears, `lookupById` never stops
retrying; no retry bound exists in the code. -/
theorem lookupById_unbounded_retries : ¬ lookupTerminates stuckEnv "y" := by
  have hnone : ∀ (fuel t : Nat), lookupByIdFrom stuckEnv "y" t fuel = none := by
    intro fuel
    induction fuel with
    | zero => intro t; rfl
    | succ n ih =>
      intro t
      have hstep : lookupStep (stuckEnv t).1 "y" (stuckEnv t).2 = .retry := rfl
      rw [lookupByIdFrom, hstep]
      exact ih (t + 1)
  rintro ⟨fuel, r, h⟩
  rw [hnone fuel 0] at h
  exact Option.noConfusion h

/-- Witness for C2 on a concrete environment: the id is in the buffer on
attempt 0 and persisted on attempt 1, so the lookup answers after one retry
and one 100 ms delay. -/
theorem lookupById_retry_contract_witness :
    ∃ r, lookupByIdTimed riseEnv "y" 0 (1 + 1) = some (retryDelayMs * 1, r) :=
  (lookupById_retry_contract riseEnv "y").2 1
    (fun u hu => by
      have hu0 : u = 0 := by omega
      subst hu0
      rfl)
    (by decide)

/-- With the write buffer quiesced an attempt never retries. -/
theorem lookupStep_false_ne_retry (heads : List Item) (id : String) :
    lookupStep heads id false ≠ .retry := by
  unfold lookupStep
  cases h : visitHeads (matchingHeads heads id) none with
  | error e => simp
  | ok o => cases o <;> simp

/-- Claim C3: when more than one non-conflicting, non-deleted head of an id
exists in the local tree, head lookup by that id fails with the ambiguous-head
error — whatever the write buffer says — and the connection is destroyed
rather than served an item. -/
theorem lookupById_ambiguous_heads :
    ∀ (heads : List Item) (id : String) (ib : Bool),
      2 ≤ (matchingHeads heads id).length →
      lookupStep heads id ib = .failed ambiguousHeadMsg ∧
      handleIdRequest heads id = .destroyed := by
  intro heads id ib hlen
  rcases hm : matchingHeads heads id with _ | ⟨x, _ | ⟨y, l⟩⟩
  · rw [hm] at hlen; simp at hlen
  · rw [hm] at hlen; simp at hlen
  · have hv : visitHeads (matchingHeads heads id) none = .error ambiguousHeadMsg := by
      rw [hm]; rfl
    exact ⟨by simp [lookupStep, hv], by simp [handleIdRequest, lookupByIdQuiesced, lookupStep, hv]⟩

/-- Witness for C3: two persisted heads of id `x` make the lookup fail and the
connection get destroyed. -/
theorem lookupById_ambiguous_heads_witness :
    lookupStep [itemA, itemB] "x" false = .failed ambiguousHeadMsg ∧
    handleIdRequest [itemA, itemB] "x" = .destroyed :=
  lookupById_ambiguous_heads [itemA, itemB] "x" false (by decide)

/-- Claim C4: with the write buffer quiesced a single attempt decides the
lookup; the handler answers with the empty BSON object exactly when no
non-deleted, non-conflict head of the id exists in the local tree, and when
exactly one such head exists that head is written back. -/
theorem headLookup_by_id_quiesced :
    ∀ (heads : List Item) (id : String),
      lookupByIdFrom (fun _ => (heads, false)) id 0 1 = some (lookupByIdQuiesced heads id)
    ∧ (handleIdRequest heads id = .wroteEmpty ↔ matchingHeads heads id = [])
    ∧ (∀ x : Item, matchingHeads heads id = [x] → handleIdRequest heads id = .wroteItem x) := by
  intro heads id
  refine ⟨?_, ?_, ?_⟩
  · cases h : lookupStep heads id false with
    | found x => simp [lookupByIdFrom, lookupByIdQuiesced, h]
    | notFound => simp [lookupByIdFrom, lookupByIdQuiesced, h]
    | retry => exact absurd h (lookupStep_false_ne_retry heads id)
    | failed e => simp [lookupByIdFrom, lookupByIdQuiesced, h]
  · rcases hm : matchingHeads heads id with _ | ⟨x, _ | ⟨y, l⟩⟩
    · have hs : lookupStep heads id false = .notFound := by simp [lookupStep, hm, visitHeads]
      simp [handleIdRequest, lookupByIdQuiesced, hs, hm]
    · have hs : lookupStep heads id false = .found x := by simp [lookupStep, hm, visitHeads]
      simp [handleIdRequest, lookupByIdQuiesced, hs, hm]
    · have hv : visitHeads (matchingHeads heads id) none = .error ambiguousHeadMsg := by
        rw [hm]; rfl
      have hs : lookupStep heads id false = .failed ambiguousHeadMsg := by simp [lookupStep, hv]
      simp [handleIdRequest, lookupByIdQuiesced, hs, hm]
  · intro x hm
    have hs : lookupStep heads id false = .found x := by simp [lookupStep, hm, visitHeads]
    simp [handleIdRequest, lookupByIdQuiesced, hs]

/-- Witness for C4: a tree whose only head of `y` is `itemY` answers the
lookup for `y` with that item. -/
theorem headLookup_by_id_quiesced_witness :
    handleIdRequest [itemY] "y" = .wroteItem itemY :=
  (headLookup_by_id_quiesced [itemY] "y").2.2 itemY (by decide)

/-- Counterexample to C5 as stated: when the log cannot be opened the child
throws out of the logger callback instead of exiting with code 2. -/
theorem startup_exit_codes_cex :
    startupDbe logFailEnv = StartOutcome.threw ∧
    StartOutcome.threw ≠ StartOutcome.exited 2 :=
  ⟨rfl, by decide⟩

/-- Claim C5 (amended): a log-open failure throws (no exit code); exit 2 is
hook loading failure; exit 3 covers uid/gid lookup and chroot-mkdir failure;
exits 4 through 7 cover data path setup (stat, mkdir, chown, non-directory);
exit 8 the chroot system call; exit 9 the store open. -/
theorem startup_exit_codes :
    ∀ env : StartupEnv,
      (env.logOpenOk = false → startupDbe env = .threw)
    ∧ (env.logOpenOk = true → env.hookPathsGiven = true → env.hookLoadOk = false →
        startupDbe env = .exited 2)
    ∧ (env.logOpenOk = true → (env.hookPathsGiven = false ∨ env.hookLoadOk = true) →
        env.userGroupOk = false → startupDbe env = .exited 3)
    ∧ (env.logOpenOk = true → (env.hookPathsGiven = false ∨ env.hookLoadOk = true) →
        env.userGroupOk = true → env.mkdirChrootOk = false → startupDbe env = .exited 3)
    ∧ (preOk env → env.statRes = .errOther → startupDbe env = .exited 4)
    ∧ (preOk env → env.statRes = .errNoEnt → env.mkdirDataOk = false →
        startupDbe env = .exited 5)
    ∧ (preOk env → env.statRes = .errNoEnt → env.mkdirDataOk = true → env.chownOk = false →
        startupDbe env = .exited 6)
    ∧ (preOk env → env.statRes = .okNotDir → startupDbe env = .exited 7)
    ∧ (preOk env → pathOk env → env.chrootOk = false → startupDbe env = .exited 8)
    ∧ (preOk env → pathOk env → env.chrootOk = true → env.dbOpenOk = false →
        startupDbe env = .exited 9) := by
  intro env
  refine ⟨?_, ?_, ?_, ?_, ?_, ?_, ?_, ?_, ?_, ?_⟩
  · intro h1
    simp [startupDbe, h1]
  · intro h1 h2 h3
    simp [startupDbe, h1, h2, h3]
  · intro h1 h2 h3
    rcases h2 with h2 | h2 <;> simp [startupDbe, h1, h2, h3]
  · intro h1 h2 h3 h4
    rcases h2 with h2 | h2 <;> simp [startupDbe, h1, h2, h3, h4]
  · rintro ⟨h1, h2, h3, h4⟩ h5
    rcases h2 with h2 | h2 <;> simp [startupDbe, h1, h2, h3, h4, h5]
  · rintro ⟨h1, h2, h3, h4⟩ h5 h6
    rcases h2 with h2 | h2 <;> simp [startupDbe, h1, h2, h3, h4, h5, h6]
  · rintro ⟨h1, h2, h3, h4⟩ h5 h6 h7
    rcases h2 with h2 | h2 <;> simp [startupDbe, chrootAndOpen, h1, h2, h3, h4, h5, h6, h7]
  · rintro ⟨h1, h2, h3, h4⟩ h5
    rcases h2 with h2 | h2 <;> simp [startupDbe, h1, h2, h3, h4, h5]
  · rintro ⟨h1, h2, h3, h4⟩ hq h5
    rcases hq with hq | ⟨hq1, hq2, hq3⟩
    · rcases h2 with h2 | h2 <;> simp [startupDbe, chrootAndOpen, h1, h2, h3, h4, h5, hq]
    · rcases h2 with h2 | h2 <;>
        simp [startupDbe, chrootAndOpen, h1, h2, h3, h4, h5, hq1, hq2, hq3]
  · rintro ⟨h1, h2, h3, h4⟩ hq h5 h6
    rcases hq with hq | ⟨hq1, hq2, hq3⟩
    · rcases h2 with h2 | h2 <;> simp [startupDbe, chrootAndOpen, h1, h2, h3, h4, h5, h6, hq]
    · rcases h2 with h2 | h2 <;>
        simp [startupDbe, chrootAndOpen, h1, h2, h3, h4, h5, h6, hq1, hq2, hq3]

/-- Witness for C5 on concrete environments: failing hook loading exits 2 and
a failing store open exits 9. -/
theorem startup_exit_codes_witness :
    startupDbe { allOkEnv with hookPathsGiven := true, hookLoadOk := false } = .exited 2
  ∧ startupDbe { allOkEnv with dbOpenOk := false } = .exited 9 :=
  ⟨(startup_exit_codes { allOkEnv with hookPathsGiven := true, hookLoadOk := false }).2.1
      rfl rfl rfl,
   (startup_exit_codes { allOkEnv with dbOpenOk := false }).2.2.2.2.2.2.2.2.2
      ⟨rfl, Or.inl rfl, rfl, rfl⟩ (Or.inl rfl) rfl rfl⟩

/-- Counterexample to C9 as stated: a request of 20 bytes for id `x` is
accepted by the parser, yet against a tree holding two non-conflict heads of
`x` it is answered with no BSON item at all — the connection is destroyed. -/
theorem head_lookup_channel_cex :
    (ambReq.bytes ≤ maxDocLength ∧ processRequest ambTree ambReq = [ConnEvent.destroyed])
  ∧ answeredCount (processRequest ambTree ambReq) = 0 := by
  decide

/-- Claim C9 (amended): a request line over 512 bytes destroys the connection
and produces no response item; an accepted request produces exactly one
response event, which is one BSON item or one empty BSON object unless the
lookup fails, in which case the connection is destroyed with no response
item. -/
theorem head_lookup_channel_responses :
    ∀ (tree : LTree) (r : RawReq),
      (maxDocLength < r.bytes →
        processRequest tree r = [ConnEvent.destroyed] ∧
        answeredCount (processRequest tree r) = 0)
    ∧ (r.bytes ≤ maxDocLength →
        processRequest tree r = [respond tree r.payload] ∧
        (respond tree r.payload = ConnEvent.destroyed ∨
          answeredCount (processRequest tree r) = 1)) := by
  intro tree r
  constructor
  · intro h
    exact ⟨by simp [processRequest, h], by simp [processRequest, h, answeredCount]⟩
  · intro h
    have hn : ¬ maxDocLength < r.bytes := by omega
    refine ⟨by simp [processRequest, hn], ?_⟩
    cases he : respond tree r.payload with
    | destroyed => exact Or.inl rfl
    | wroteItem x => exact Or.inr (by simp [processRequest, hn, answeredCount, he])
    | wroteEmpty => exact Or.inr (by simp [processRequest, hn, answeredCount, he])

/-- Witness for C9: an oversized request line is destroyed unanswered, and an
accepted request yields one response event. -/
theorem head_lookup_channel_responses_witness :
    (processRequest ambTree bigReq = [ConnEvent.destroyed] ∧
      answeredCount (processRequest ambTree bigReq) = 0)
  ∧ (processRequest ambTree ambReq = [respond ambTree ambReq.payload] ∧
      (respond ambTree ambReq.payload = ConnEvent.destroyed ∨
        answeredCount (processRequest ambTree ambReq) = 1)) :=
  ⟨(head_lookup_channel_responses ambTree bigReq).1 (by decide),
   (head_lookup_channel_responses ambTree ambReq).2 (by decide)⟩

/-- A nonempty byI index always has a last version. -/
theorem lastVersionItem_eq_none (l : List Item) : lastVersionItem l = none ↔ l = [] := by
  cases l with
  | nil => simp [lastVersionItem]
  | cons a as =>
    simp only [lastVersionItem]
    constructor
    · intro h
      exfalso
      cases hlast : lastVersionItem as with
      | none => rw [hlast] at h; exact Option.noConfusion h
      | some y =>
        rw [hlast] at h
        by_cases hc : y.h.i < a.h.i <;> simp [hc] at h
    · intro h
      exact List.noConfusion h

/-- The last version carries the largest insertion sequence. -/
theorem lastVersionItem_max :
    ∀ (l : List Item) (m : Item), lastVersionItem l = some m →
      ∀ x ∈ l, x.h.i ≤ m.h.i := by
  intro l
  induction l with
  | nil => intro m h; simp [lastVersionItem] at h
  | cons a as ih =>
    intro m h x hx
    simp only [lastVersionItem] at h
    cases hlast : lastVersionItem as with
    | none =>
      rw [hlast] at h
      have hm : a = m := by injection h
      have has : as = [] := (lastVersionItem_eq_none as).mp hlast
      subst has
      rcases List.mem_singleton.mp hx with rfl
      rw [hm]
    | some y =>
      rw [hlast] at h
      have ihy := ih y hlast
      rcases List.mem_cons.mp hx with rfl | hx2
      · by_cases hc : y.h.i < x.h.i
        · have hm : x = m := Option.some.inj (by simpa [hc] using h)
          subst hm
          exact Nat.le_refl _
        · have hm : y = m := Option.some.inj (by simpa [hc] using h)
          subst hm
          omega
      · by_cases hc : y.h.i < a.h.i
        · have hm : a = m := Option.some.inj (by simpa [hc] using h)
          subst hm
          have hxy := ihy x hx2
          omega
        · have hm : y = m := Option.some.inj (by simpa [hc] using h)
          subst hm
          exact ihy x hx2

/-- Claim C10: the head-lookup branch without id and without prefix answers
with the empty BSON object exactly when the local tree is empty; the last
version is the item with the largest insertion sequence; when that version is
fetched back by version the item is written to the connection; and the only
error path is the last version not being fetchable by version. -/
theorem head_lookup_last_saved :
    ∀ tree : LTree,
      (respondLast tree = ConnEvent.wroteEmpty ↔ tree.items = [])
    ∧ (∀ m : Item, lastVersionItem tree.items = some m → ∀ x ∈ tree.items, x.h.i ≤ m.h.i)
    ∧ (∀ m : Item, lastVersionItem tree.items = some m →
        getByVersion tree m.h.v = some m → respondLast tree = ConnEvent.wroteItem m)
    ∧ (respondLast tree = ConnEvent.destroyed →
        ∃ m, lastVersionItem tree.items = some m ∧ getByVersion tree m.h.v = none) := by
  intro tree
  refine ⟨⟨?_, ?_⟩, fun m h => lastVersionItem_max tree.items m h, ?_, ?_⟩
  · intro h
    cases hl : lastVersionItem tree.items with
    | none => exact (lastVersionItem_eq_none tree.items).mp hl
    | some m =>
      exfalso
      cases hg : getByVersion tree m.h.v with
      | none => simp [respondLast, hl, hg] at h
      | some x => simp [respondLast, hl, hg] at h
  · intro h
    have hl : lastVersionItem tree.items = none := by rw [h]; rfl
    simp [respondLast, hl]
  · intro m hl hg
    simp [respondLast, hl, hg]
  · intro h
    cases hl : lastVersionItem tree.items with
    | none => simp [respondLast, hl] at h
    | some m =>
      cases hg : getByVersion tree m.h.v with
      | none => exact ⟨m, rfl, hg⟩
      | some x => simp [respondLast, hl, hg] at h

/-- Witness for C10: in a tree with items of insertion sequences 1 and 2 the
handler answers with the item of sequence 2. -/
theorem head_lookup_last_saved_witness :
    respondLast ambTree = ConnEvent.wroteItem itemB :=
  (head_lookup_last_saved ambTree).2.2.1 itemB (by decide) (by decide)
